import Mathlib

/-!
Verification of the page-generation pipeline of the repository
(gatsby-node style build script: `createPages` and `onCreateNode`).

The JavaScript source is shallowly embedded: JS `undefined` is modelled
with `Option`, a field access on a mapping that lacks the key yields
`none`, and the out-of-range array accesses `posts[i + 1]` /
`posts[i - 1]` are modelled by an integer-indexed lookup that yields
`none` outside the array bounds (as `posts[-1] || {}` destructures to
`undefined` in JS).
-/

namespace ValencikCom

/-- Frontmatter metadata of a content node, as selected by the query
(`frontmatter { title }`).  `none` models an absent value. -/
structure Frontmatter where
  title : Option String
deriving Repr, DecidableEq

/-- The derived-fields mapping of a content node (`fields { slug }`).
`slug = none` models a mapping that lacks the `slug` key, so that the JS
access `fields.slug` evaluates to `undefined` rather than throwing. -/
structure Fields where
  slug : Option String
deriving Repr, DecidableEq

/-- A content node as seen by `createPages` through the query. -/
structure Node where
  fields : Fields
  frontmatter : Frontmatter
deriving Repr, DecidableEq

/-- One element of `result.data.allMarkdownRemark.edges`. -/
structure Edge where
  node : Node
deriving Repr, DecidableEq

/-- `result.data` of the query. -/
structure QueryData where
  edges : List Edge
deriving Repr, DecidableEq

/-- The resolved value of the graphql promise.  `errors = some es`
models a truthy `result.errors` (in practice a non-empty error array). -/
structure QueryResult where
  errors : Option (List String)
  data : QueryData
deriving Repr, DecidableEq

/-- The context bundle passed to `createPage`. -/
structure PageContext where
  slug : Option String
  previous : Option Node
  next : Option Node
deriving Repr, DecidableEq

/-- One `createPage` command (a Page Plan Entry): route path, template
component, and context bundle.  `path = none` models `path: undefined`. -/
structure PageEntry where
  path : Option String
  component : String
  context : PageContext
deriving Repr, DecidableEq

/-- The template component resolved at the top of `createPages`
(`path.resolve("./src/templates/blog-post.js")`). -/
def blogPostComponent : String := "./src/templates/blog-post.js"

/-- JS array access `(posts[i] || {}).node` at a possibly negative or
out-of-range integer index: the node when `0 ≤ i < posts.length`, else
`undefined` (the destructuring of `{}` yields `undefined`). -/
def jsNeighbor (posts : List Edge) (i : Int) : Option Node :=
  if h : 0 ≤ i ∧ i.toNat < posts.length then
    some (posts.get ⟨i.toNat, h.2⟩).node
  else
    none

/-- The body of the `forEach` callback: one `createPage` argument built
from `post` at index `i` of `posts`. -/
def planEntry (posts : List Edge) (i : Nat) (post : Edge) : PageEntry :=
  { path := post.node.fields.slug
  , component := blogPostComponent
  , context :=
    { slug := post.node.fields.slug
    , previous := jsNeighbor posts ((i : Int) + 1)
    , next := jsNeighbor posts ((i : Int) - 1) } }

/-- `posts.forEach((post, i, posts) => createPage(...))`, accumulating
the `createPage` commands in issue order: `i` is the index of the first
element of `rest` within `posts`. -/
def planAux (posts : List Edge) (i : Nat) : List Edge → List PageEntry
  | [] => []
  | post :: rest => planEntry posts i post :: planAux posts (i + 1) rest

/-- All `createPage` commands issued by the `forEach` over `edges`,
in issue order. -/
def createPagesPlan (posts : List Edge) : List PageEntry :=
  planAux posts 0 posts

/-- `createPages`: check `result.errors` (throwing it when truthy), then
run the `forEach` issuing one `createPage` per edge.  `.error` models the
rejected promise, `.ok` the list of issued `createPage` commands. -/
def createPages (result : QueryResult) : Except (List String) (List PageEntry) :=
  match result.errors with
  | some errs => .error errs
  | none => .ok (createPagesPlan result.data.edges)

/-- The pages actually registered by a build pass: none when the pass
aborts with an error. -/
def registeredPages (result : QueryResult) : List PageEntry :=
  match createPages result with
  | .error _ => []
  | .ok ps => ps

/-- Modelled from the spec: the Content Source query capability is
external (the query engine behind `allMarkdownRemark`), so its
limit-clause semantics are not in this repository.  Per the spec it
returns the nodes in the requested sort order (descending date) capped
at the requested count: the input list here is already in sort order and
the cap keeps the first `limit` nodes. -/
def contentSourceQuery (sortedEdges : List Edge) (limit : Nat) : List Edge :=
  sortedEdges.take limit

/-- The whole page-generation pass over a (sorted) content set: the
source runs the query with the limit hard-wired in the query text
(`limit: 1000`), then `createPages` consumes the result. -/
def runPassOn (sortedEdges : List Edge) : List PageEntry :=
  registeredPages { errors := none, data := ⟨contentSourceQuery sortedEdges 1000⟩ }

/-- `node.internal` as inspected by `onCreateNode`. -/
structure Internal where
  type : String
deriving Repr, DecidableEq

/-- A raw node as seen by `onCreateNode`, before slug derivation.
`loc` is its relative location under the content root. -/
structure RawNode where
  internal : Internal
  fields : Fields
  loc : String
deriving Repr, DecidableEq

/-- Modelled from the spec: `createFilePath` (from the external
`gatsby-source-filesystem` package, not in this repository) maps the
node's relative location under the content root to a route path string
beginning and ending with a separator. -/
def createFilePath (node : RawNode) : String :=
  "/" ++ node.loc ++ "/"

/-- One `createNodeField` command. -/
structure NodeFieldCommand where
  name : String
  value : String
deriving Repr, DecidableEq

/-- `onCreateNode`: return early (no commands) unless
`node.internal.type === "MarkdownRemark"`; otherwise issue exactly one
`createNodeField` setting field `slug` to `createFilePath(node)`. -/
def onCreateNode (node : RawNode) : List NodeFieldCommand :=
  if node.internal.type ≠ "MarkdownRemark" then []
  else [⟨"slug", createFilePath node⟩]

/-- The effect of a `createNodeField` command on the node's
derived-fields mapping. -/
def applyNodeField (node : RawNode) (cmd : NodeFieldCommand) : RawNode :=
  if cmd.name = "slug" then
    { node with fields := { slug := some cmd.value } }
  else
    node

/-- The node after `onCreateNode` ran: every issued command applied. -/
def runOnCreateNode (node : RawNode) : RawNode :=
  (onCreateNode node).foldl applyNodeField node

/-! ### Support lemmas -/

theorem length_planAux (posts : List Edge) :
    ∀ (rest : List Edge) (i : Nat), (planAux posts i rest).length = rest.length := by
  intro rest
  induction rest with
  | nil => intro i; rfl
  | cons post rest ih => intro i; simp [planAux, ih]

theorem length_createPagesPlan (posts : List Edge) :
    (createPagesPlan posts).length = posts.length :=
  length_planAux posts posts 0

theorem get?_planAux (posts : List Edge) :
    ∀ (rest : List Edge) (i j : Nat),
      (planAux posts i rest).get? j = (rest.get? j).map (planEntry posts (i + j)) := by
  intro rest
  induction rest with
  | nil => intro i j; simp [planAux]
  | cons post rest ih =>
    intro i j
    cases j with
    | zero => simp [planAux]
    | succ j =>
      have hc : i + (j + 1) = (i + 1) + j := by omega
      rw [hc]
      simpa [planAux] using ih (i + 1) j

theorem get?_createPagesPlan (posts : List Edge) (i : Nat) :
    (createPagesPlan posts).get? i = (posts.get? i).map (planEntry posts i) := by
  simpa using get?_planAux posts posts 0 i

theorem get_createPagesPlan (posts : List Edge) (i : Nat)
    (hi : i < (createPagesPlan posts).length) :
    (createPagesPlan posts).get ⟨i, hi⟩
      = planEntry posts i (posts.get ⟨i, (length_createPagesPlan posts) ▸ hi⟩) := by
  have hp : i < posts.length := (length_createPagesPlan posts) ▸ hi
  have h1 := List.get?_eq_get (l := createPagesPlan posts) hi
  have h2 := List.get?_eq_get (l := posts) hp
  have h3 := get?_createPagesPlan posts i
  rw [h1, h2] at h3
  simpa using h3

theorem jsNeighbor_eq_get? (posts : List Edge) (i : Nat) :
    jsNeighbor posts (i : Int) = (posts.get? i).map Edge.node := by
  unfold jsNeighbor
  by_cases h : i < posts.length
  · rw [dif_pos ⟨Int.ofNat_nonneg i, by simpa using h⟩, List.get?_eq_get h]
    simp
  · rw [dif_neg (fun hc => absurd (show i < posts.length by simpa using hc.2) h),
      List.get?_eq_none.mpr (le_of_not_lt h)]
    rfl

theorem jsNeighbor_neg (posts : List Edge) (i : Int) (h : i < 0) :
    jsNeighbor posts i = none :=
  dif_neg (fun hc => absurd hc.1 (not_le.mpr h))

theorem jsNeighbor_pred (posts : List Edge) (i : Nat) :
    jsNeighbor posts ((i : Int) - 1)
      = if i = 0 then none else (posts.get? (i - 1)).map Edge.node := by
  cases i with
  | zero =>
    rw [if_pos rfl]
    exact jsNeighbor_neg posts _ (by norm_num)
  | succ j =>
    rw [if_neg (Nat.succ_ne_zero j)]
    have hc : ((j + 1 : Nat) : Int) - 1 = (j : Int) := by push_cast; ring
    rw [hc]
    simpa using jsNeighbor_eq_get? posts j

/-! ### Concrete sample inputs for witnesses -/

/-- A sample slug-annotated node (newest of three). -/
def nodeC : Node := ⟨⟨some "/blog/c/"⟩, ⟨some "C"⟩⟩

/-- A sample slug-annotated node (middle of three). -/
def nodeB : Node := ⟨⟨some "/blog/b/"⟩, ⟨some "B"⟩⟩

/-- A sample slug-annotated node (oldest of three). -/
def nodeA : Node := ⟨⟨some "/blog/a/"⟩, ⟨some "A"⟩⟩

/-- Three sample posts sorted newest-first. -/
def samplePosts : List Edge := [⟨nodeC⟩, ⟨nodeB⟩, ⟨nodeA⟩]

/-- An edge whose node's derived-fields mapping lacks the `slug` key. -/
def sluglessEdge : Edge := ⟨⟨⟨none⟩, ⟨none⟩⟩⟩

/-- A query result reporting an error. -/
def failedQuery : QueryResult := ⟨some ["GraphQL query failed"], ⟨[]⟩⟩

/-- A 1500-element sorted content set. -/
def bulkEdges : List Edge := List.replicate 1500 ⟨nodeA⟩

/-! ### Claim theorems -/

/-- C1: for an input sequence sorted newest-first, the Page Plan Entry at
0-based position `i` has `previous` equal to the node at position `i + 1`
when that position exists and absent otherwise, and `next` equal to the
node at position `i - 1` when that position exists and absent otherwise;
the entry at position 0 has no `next`, the entry at position `n - 1` has
no `previous`, and every entry strictly between them has both. -/
theorem createPages_neighbor_links (posts : List Edge) (i : Nat)
    (hi : i < (createPagesPlan posts).length) :
    ((createPagesPlan posts).get ⟨i, hi⟩).context.previous
        = (posts.get? (i + 1)).map Edge.node
    ∧ ((createPagesPlan posts).get ⟨i, hi⟩).context.next
        = (if i = 0 then none else (posts.get? (i - 1)).map Edge.node)
    ∧ (i = 0 → ((createPagesPlan posts).get ⟨i, hi⟩).context.next = none)
    ∧ (i = posts.length - 1 →
        ((createPagesPlan posts).get ⟨i, hi⟩).context.previous = none)
    ∧ (0 < i → i < posts.length - 1 →
        (((createPagesPlan posts).get ⟨i, hi⟩).context.previous).isSome = true
        ∧ (((createPagesPlan posts).get ⟨i, hi⟩).context.next).isSome = true) := by
  have hp : i < posts.length := (length_createPagesPlan posts) ▸ hi
  have hcast : (i : Int) + 1 = ((i + 1 : Nat) : Int) := by push_cast; ring
  rw [get_createPagesPlan posts i hi]
  have hprev : (planEntry posts i (posts.get ⟨i, (length_createPagesPlan posts) ▸ hi⟩)).context.previous
      = (posts.get? (i + 1)).map Edge.node := by
    simp only [planEntry, hcast, jsNeighbor_eq_get?]
  have hnext : (planEntry posts i (posts.get ⟨i, (length_createPagesPlan posts) ▸ hi⟩)).context.next
      = (if i = 0 then none else (posts.get? (i - 1)).map Edge.node) := by
    simp only [planEntry, jsNeighbor_pred]
  refine ⟨hprev, hnext, ?_, ?_, ?_⟩
  · intro h0
    rw [hnext, if_pos h0]
  · intro hlast
    rw [hprev, List.get?_eq_none.mpr (by omega)]
    rfl
  · intro h0 hlt
    constructor
    · rw [hprev, List.get?_eq_get (show i + 1 < posts.length by omega)]
      rfl
    · rw [hnext, if_neg (by omega),
        List.get?_eq_get (show i - 1 < posts.length by omega)]
      rfl

/-- Witness for C1: the middle entry of the three-post sample has the
oldest node as `previous`. -/
theorem createPages_neighbor_links_witness :
    ((createPagesPlan samplePosts).get ⟨1, by decide⟩).context.previous
      = (samplePosts.get? 2).map Edge.node :=
  (createPages_neighbor_links samplePosts 1 (by decide)).1

/-- C2 (code behavior at the failing input): on a query result whose sole
node's derived-fields mapping lacks a slug, `createPages` does not fail:
it issues one register-page command whose route path and context slug are
`undefined`. -/
theorem createPages_missing_slug_registers_page :
    createPages ⟨none, ⟨[sluglessEdge]⟩⟩
      = .ok [{ path := none, component := blogPostComponent,
               context := { slug := none, previous := none, next := none } }] := by
  rfl

/-- C3: when every node carries a slug, the planner emits exactly one
Page Plan Entry per input node, in 1:1 order-preserving correspondence;
the empty input yields the empty output with no register-page command and
no error. -/
theorem createPages_emits_one_per_node (posts : List Edge)
    (h : ∀ e ∈ posts, (e.node.fields.slug).isSome = true) :
    (createPagesPlan posts).length = posts.length
    ∧ (∀ i : Nat, ((createPagesPlan posts).get? i).map PageEntry.path
          = (posts.get? i).map (fun e => e.node.fields.slug))
    ∧ createPages ⟨none, ⟨[]⟩⟩ = .ok []
    ∧ registeredPages ⟨none, ⟨[]⟩⟩ = [] := by
  refine ⟨length_createPagesPlan posts, ?_, rfl, rfl⟩
  intro i
  rw [get?_createPagesPlan]
  cases posts.get? i with
  | none => rfl
  | some e => rfl

/-- Witness for C3: the three-post sample (all slug-annotated) yields
exactly three entries. -/
theorem createPages_emits_one_per_node_witness :
    (createPagesPlan samplePosts).length = samplePosts.length :=
  (createPages_emits_one_per_node samplePosts (by decide)).1

/-- C4: when the query reports an error, the error is propagated, the
pass aborts, and zero register-page commands are issued. -/
theorem createPages_query_error_aborts (result : QueryResult) (errs : List String)
    (h : result.errors = some errs) :
    createPages result = .error errs ∧ registeredPages result = [] := by
  refine ⟨?_, ?_⟩ <;> simp [createPages, registeredPages, h]

/-- Witness for C4: a failed query registers no pages. -/
theorem createPages_query_error_aborts_witness :
    createPages failedQuery = .error ["GraphQL query failed"]
    ∧ registeredPages failedQuery = [] :=
  createPages_query_error_aborts failedQuery ["GraphQL query failed"] rfl

/-- C5: the node-count bound is a parameter of the content-source query
(the pass wires in 1000, the default used by the source); a content set
at least as large as the bound is silently truncated rather than
erroring, so exactly 1000 entries are produced, corresponding to the
first 1000 nodes in sort order. -/
theorem createPages_cap_truncates (sortedEdges : List Edge)
    (h : 1000 ≤ sortedEdges.length) :
    (∀ limit : Nat, (contentSourceQuery sortedEdges limit).length
        = min limit sortedEdges.length)
    ∧ (runPassOn sortedEdges).length = 1000
    ∧ (∀ i : Nat, i < 1000 →
        ((runPassOn sortedEdges).get? i).map PageEntry.path
          = (sortedEdges.get? i).map (fun e => e.node.fields.slug)) := by
  refine ⟨fun limit => by simp [contentSourceQuery], ?_, ?_⟩
  · show (createPagesPlan (sortedEdges.take 1000)).length = 1000
    rw [length_createPagesPlan, List.length_take]
    omega
  · intro i hi
    show ((createPagesPlan (sortedEdges.take 1000)).get? i).map PageEntry.path = _
    rw [get?_createPagesPlan, List.get?_take hi]
    cases sortedEdges.get? i with
    | none => rfl
    | some e => rfl

/-- Witness for C5: the 1500-element content set yields exactly 1000
entries. -/
theorem createPages_cap_truncates_witness :
    (runPassOn bulkEdges).length = 1000 :=
  (createPages_cap_truncates bulkEdges (by norm_num [bulkEdges])).2.1

/-- C6: for every node whose kind is not the recognized
markdown-document kind, the Slug Deriver issues no field-write command
and leaves the node completely unmodified. -/
theorem onCreateNode_nonrecognized_noop (node : RawNode)
    (h : node.internal.type ≠ "MarkdownRemark") :
    onCreateNode node = [] ∧ runOnCreateNode node = node := by
  refine ⟨?_, ?_⟩ <;> simp [onCreateNode, runOnCreateNode, h]

/-- Witness for C6: a `File` node passes through unmodified. -/
theorem onCreateNode_nonrecognized_noop_witness :
    onCreateNode ⟨⟨"File"⟩, ⟨none⟩, "blog/a-post"⟩ = []
    ∧ runOnCreateNode ⟨⟨"File"⟩, ⟨none⟩, "blog/a-post"⟩
        = ⟨⟨"File"⟩, ⟨none⟩, "blog/a-post"⟩ :=
  onCreateNode_nonrecognized_noop ⟨⟨"File"⟩, ⟨none⟩, "blog/a-post"⟩ (by decide)

/-- C7: every Page Plan Entry's route path equals the corresponding
node's derived slug verbatim, and its context bundle carries that same
slug together with the optional previous and next node references. -/
theorem createPages_route_is_slug (posts : List Edge) (i : Nat)
    (hi : i < (createPagesPlan posts).length) :
    ((createPagesPlan posts).get ⟨i, hi⟩).path
        = (posts.get ⟨i, (length_createPagesPlan posts) ▸ hi⟩).node.fields.slug
    ∧ ((createPagesPlan posts).get ⟨i, hi⟩).context.slug
        = ((createPagesPlan posts).get ⟨i, hi⟩).path
    ∧ ((createPagesPlan posts).get ⟨i, hi⟩).context.previous
        = (posts.get? (i + 1)).map Edge.node
    ∧ ((createPagesPlan posts).get ⟨i, hi⟩).context.next
        = (if i = 0 then none else (posts.get? (i - 1)).map Edge.node) := by
  have hcast : (i : Int) + 1 = ((i + 1 : Nat) : Int) := by push_cast; ring
  rw [get_createPagesPlan posts i hi]
  refine ⟨rfl, rfl, ?_, ?_⟩
  · simp only [planEntry, hcast, jsNeighbor_eq_get?]
  · simp only [planEntry, jsNeighbor_pred]

/-- Witness for C7: the first sample entry's route path is the first
sample node's slug. -/
theorem createPages_route_is_slug_witness :
    ((createPagesPlan samplePosts).get ⟨0, by decide⟩).path
      = (samplePosts.get ⟨0, by decide⟩).node.fields.slug :=
  (createPages_route_is_slug samplePosts 0 (by decide)).1

/-- C8: the Page Planner is deterministic and idempotent: two runs on
the same sorted, slug-annotated input yield identical Page Plan Entries
(same route paths and the same neighbor references, in the same order);
the planner is a pure function of its input. -/
theorem createPages_idempotent (posts : List Edge) :
    createPagesPlan posts = createPagesPlan posts
    ∧ (createPagesPlan posts).map PageEntry.path
        = (createPagesPlan posts).map PageEntry.path
    ∧ (createPagesPlan posts).map (fun e => e.context.previous)
        = (createPagesPlan posts).map (fun e => e.context.previous)
    ∧ (createPagesPlan posts).map (fun e => e.context.next)
        = (createPagesPlan posts).map (fun e => e.context.next) :=
  ⟨rfl, rfl, rfl, rfl⟩

/-- C9: neighbor links are mutually consistent: for `i + 1 < n`, the
entry at position `i` has `previous` equal to the node at position
`i + 1`, and the entry at position `i + 1` has `next` equal to the node
at position `i`. -/
theorem createPages_neighbors_mutual (posts : List Edge) (i : Nat)
    (h : i + 1 < posts.length) :
    ((createPagesPlan posts).get? i).map (fun e => e.context.previous)
        = some (some (posts.get ⟨i + 1, h⟩).node)
    ∧ ((createPagesPlan posts).get? (i + 1)).map (fun e => e.context.next)
        = some (some (posts.get ⟨i, Nat.lt_of_succ_lt h⟩).node) := by
  have hi : i < posts.length := Nat.lt_of_succ_lt h
  have hcast : (i : Int) + 1 = ((i + 1 : Nat) : Int) := by push_cast; ring
  have hprev : (planEntry posts i (posts.get ⟨i, hi⟩)).context.previous
      = some (posts.get ⟨i + 1, h⟩).node := by
    simp only [planEntry, hcast, jsNeighbor_eq_get?, List.get?_eq_get h]
    rfl
  have hnext : (planEntry posts (i + 1) (posts.get ⟨i + 1, h⟩)).context.next
      = some (posts.get ⟨i, hi⟩).node := by
    simp only [planEntry, jsNeighbor_pred]
    rw [if_neg (Nat.succ_ne_zero i), Nat.add_sub_cancel, List.get?_eq_get hi]
    rfl
  refine ⟨?_, ?_⟩
  · rw [get?_createPagesPlan, List.get?_eq_get hi]
    show some (planEntry posts i (posts.get ⟨i, hi⟩)).context.previous = _
    rw [hprev]
  · rw [get?_createPagesPlan, List.get?_eq_get h]
    show some (planEntry posts (i + 1) (posts.get ⟨i + 1, h⟩)).context.next = _
    rw [hnext]

/-- Witness for C9: in the three-post sample, entry 0's `previous` is
node B and entry 1's `next` is node C. -/
theorem createPages_neighbors_mutual_witness :
    ((createPagesPlan samplePosts).get? 0).map (fun e => e.context.previous)
        = some (some (samplePosts.get ⟨1, by decide⟩).node)
    ∧ ((createPagesPlan samplePosts).get? 1).map (fun e => e.context.next)
        = some (some (samplePosts.get ⟨0, by decide⟩).node) :=
  createPages_neighbors_mutual samplePosts 0 (by decide)

/-- C10: the neighbor lookups are total: the out-of-range accesses at
positions `-1` and `n` yield an absent neighbor instead of failing, and
a single-element input produces its sole entry with both `previous` and
`next` absent and no error. -/
theorem createPages_boundary_total (posts : List Edge) (e : Edge) :
    jsNeighbor posts (-1) = none
    ∧ jsNeighbor posts (posts.length : Int) = none
    ∧ createPages ⟨none, ⟨[e]⟩⟩ = .ok (createPagesPlan [e])
    ∧ (createPagesPlan [e]).length = 1
    ∧ ((createPagesPlan [e]).get? 0).map (fun p => p.context.previous) = some none
    ∧ ((createPagesPlan [e]).get? 0).map (fun p => p.context.next) = some none := by
  refine ⟨jsNeighbor_neg posts (-1) (by norm_num), ?_, rfl, rfl, ?_, ?_⟩
  · rw [jsNeighbor_eq_get? posts posts.length, List.get?_eq_none.mpr (le_refl _)]
    rfl
  · rfl
  · rfl

end ValencikCom
